import Mathlib

/-!
Verification development for the `ai-music` web backend (`app_optimized.py`).

The development is a shallow embedding of the Flask app's pure request logic:
outbound HTTP calls (the multi-endpoint music API proxy, the netease backup
API, the local Elasticsearch index) are modelled as environment data of type
`Except Unit _` (`.error` models a raised exception / unavailable service),
and the SQLite `analyzed_songs` table is modelled as a list of rows with the
endpoint handlers returning the updated table.  Python string operations
(`str.strip`, `str.lower`, `str.split('\n')`) are embedded as executable
functions over `List Char`.
-/

/-! ## Python string primitives -/

/-- Embedding of Python `str.lower()` (ASCII case mapping). -/
def pyLower (s : String) : String := ⟨s.data.map Char.toLower⟩

/-- Embedding of Python `str.strip()`: drop whitespace from both ends. -/
def pyStrip (s : String) : String :=
  ⟨(((s.data.dropWhile Char.isWhitespace).reverse).dropWhile Char.isWhitespace).reverse⟩

/-- Helper for `pySplitLines`: accumulate the current line (reversed). -/
def splitLinesAux : List Char → List Char → List String
  | [], acc => [⟨acc.reverse⟩]
  | c :: rest, acc =>
    if c = '\n' then ⟨acc.reverse⟩ :: splitLinesAux rest [] else splitLinesAux rest (c :: acc)

/-- Embedding of Python `str.split('\n')`. -/
def pySplitLines (s : String) : List String := splitLinesAux s.data []

/-! ## Data model: songs as returned by the various search sources -/

/-- One match of the query inside a lyric, as built by `find_lyric_matches`. -/
structure LyricMatch where
  line_number : Nat
  line_text : String
  start_pos : Nat
  match_text : String
deriving DecidableEq

/-- The `artist` value of a song dict: the online APIs sometimes return a list
of artist names and sometimes a single string (`app_optimized.py` lines 652-657
handle both). -/
inductive ArtistVal where
  | str (s : String)
  | list (l : List String)
deriving DecidableEq

/-- A song dict as passed around by the search pipeline.  Fields that a given
source does not set default to the values Python's `dict.get` defaults supply.
`lyric_matches`/`has_lyric_match` model the keys added during dedup
(lines 670-671). -/
structure Song where
  id : String
  name : String
  artist : ArtistVal
  album : String := ""
  pic_id : String := ""
  lyric_id : String := ""
  source : String := ""
  platform : String := ""
  platform_name : String := ""
  lyricist : String := ""
  composer : String := ""
  lyric_text : String := ""
  lyric_matches : List LyricMatch := []
  has_lyric_match : Bool := false
deriving DecidableEq

/-- `', '.join(artist)` when the artist field is a list, `str(artist)`
otherwise (lines 653-657). -/
def artistToStr : ArtistVal → String
  | .str s => s
  | .list l => String.intercalate ", " l

/-- The normalised name part of the dedup key: `str(song.get('name','')).lower().strip()`
(line 660). -/
def normName (s : Song) : String := pyStrip (pyLower s.name)

/-- The dedup key of line 662: `f"{name_str}-{artist_key}"`. -/
def songKey (s : Song) : String :=
  normName s ++ "-" ++ pyStrip (pyLower (artistToStr s.artist))

/-- The mutations applied to a kept song in the dedup loop (lines 667-671):
the artist field is replaced by its joined string form and the two lyric-match
keys are set. -/
def processSong (s : Song) : Song :=
  { s with artist := .str (artistToStr s.artist), lyric_matches := [], has_lyric_match := false }

/-- The dedup-and-truncate loop of `search` (lines 649-675).  `limit` is the
remaining capacity; the loop appends a song and then breaks once the kept
count reaches the requested limit, so with remaining capacity `≤ 1` the
current song is the last one kept. -/
def dedupSongs (limit : Nat) : List Song → List String → List Song
  | [], _ => []
  | s :: rest, seen =>
    if songKey s ∉ seen ∧ songKey s ≠ "-" ∧ normName s ≠ "" then
      if limit ≤ 1 then [processSong s]
      else processSong s :: dedupSongs (limit - 1) rest (songKey s :: seen)
    else dedupSongs limit rest seen

/-! ## Local Elasticsearch search (`search_local_elasticsearch`, lines 151-225) -/

/-- An Elasticsearch hit: `_id` plus the `_source` fields read by the code. -/
structure EsHit where
  id : String
  song : String := ""
  singer : String := ""
  album : String := ""
  author : String := ""
  composer : String := ""
  geci : String := ""
deriving DecidableEq

/-- Reshaping of a local hit into a song dict (lines 163-176). -/
def hitToSong (h : EsHit) : Song :=
  { id := h.id, name := h.song, artist := .str h.singer, album := h.album,
    lyricist := h.author, composer := h.composer, lyric_id := h.id,
    source := "local", platform := "local", platform_name := "本地数据库",
    pic_id := h.id, lyric_text := h.geci }

/-- The singer/lyric phases (lines 181-197, 202-218): append each hit whose
`_id` is not already among the accumulated results. -/
def addHits (results : List Song) (hits : List EsHit) : List Song :=
  hits.foldl
    (fun acc h => if (acc.map (fun r => r.id)).contains h.id then acc else acc ++ [hitToSong h])
    results

/-- The three query results the local index returns for the current query
(`search_song`, `search_singer`, `search_geci`). -/
structure LocalIndex where
  songHits : List EsHit
  singerHits : List EsHit
  geciHits : List EsHit
deriving DecidableEq

/-- Embedding of `search_local_elasticsearch` (lines 151-225): `none` models
`local_searcher` being `None` (line 153), `.error` a raised exception inside
the `try` block (lines 223-225); both return `[]`. -/
def search_local_elasticsearch (ls : Option (Except Unit LocalIndex)) (limit : Nat) :
    List Song :=
  match ls with
  | none => []
  | some (.error _) => []
  | some (.ok idx) =>
    let r1 := (idx.songHits.take limit).map hitToSong
    let r2 := if r1.length < limit then addHits r1 (idx.singerHits.take (limit - r1.length)) else r1
    if r2.length < limit then addHits r2 (idx.geciHits.take (limit - r2.length)) else r2

/-! ## The `/search` endpoint (lines 597-696) -/

/-- Environment of one `/search` request: the local index, the outcome of
`music_api.search_music(query, src, 10, 1)` per platform, and the outcome of
`backup_searcher.search_netease_backup(query, 10)`.  `.error` models a raised
exception. -/
structure SearchEnv where
  localSearcher : Option (Except Unit LocalIndex)
  mainSearch : String → Except Unit (List Song)
  neteaseBackup : Except Unit (List Song)

/-- Contribution of one online platform in the loop body (lines 622-639): an
exception is caught and contributes nothing; if the main API returns no
results for `netease`, the backup API is tried (lines 628-630). -/
def platformResults (env : SearchEnv) (src : String) : List Song :=
  match env.mainSearch src with
  | .error _ => []
  | .ok rs =>
    if rs = [] ∧ src = "netease" then
      match env.neteaseBackup with
      | .error _ => []
      | .ok bs => bs
    else rs

/-- The `for src in sources` loop (lines 622-639), returning the accumulated
online results together with the list of platforms passed to
`music_api.search_music`. -/
def onlineLoop (env : SearchEnv) : List String → List Song × List String
  | [] => ([], [])
  | src :: rest =>
    let r := platformResults env src
    let (rs, tr) := onlineLoop env rest
    (r ++ rs, src :: tr)

/-- The two demo songs of `BackupMusicSearcher.search_mock_data` (lines 450-480). -/
def mock_songs (query : String) : List Song :=
  [ { id := "mock_" ++ query ++ "_1", name := query ++ " - 精选版",
      artist := .str "知名歌手", album := "热门专辑", pic_id := "mock_pic_1",
      lyric_id := "mock_lyric_1", source := "demo", platform := "demo",
      platform_name := "演示平台", lyricist := "优秀作词人", composer := "才华作曲家" },
    { id := "mock_" ++ query ++ "_2", name := "关于" ++ query ++ "的歌",
      artist := .str "流行歌手", album := "最新单曲", pic_id := "mock_pic_2",
      lyric_id := "mock_lyric_2", source := "demo", platform := "demo",
      platform_name := "演示平台", lyricist := "创意作词人", composer := "新锐作曲家" } ]

/-- `search_mock_data(query, limit)` returns `mock_songs[:limit]` (line 481). -/
def search_mock_data (query : String) (limit : Nat) : List Song :=
  (mock_songs query).take limit

/-- Dedup then mock fallback (lines 649-682): the deduplicated list, replaced
by `search_mock_data(query, 5)` when it is empty. -/
def searchFinal (limit : Nat) (all : List Song) (query : String) : List Song :=
  let u := dedupSongs limit all []
  if u = [] then search_mock_data query 5 else u

/-- The JSON body returned by `/search`: the error shape of lines 605/696 or
the success shape of lines 684-692. -/
inductive SearchResponse where
  | err (msg : String) (results : List Song)
  | ok (query : String) (count : Nat) (total_found : Nat) (local_count : Nat)
      (results : List Song)
deriving DecidableEq

/-- Results list carried by a `/search` response. -/
def SearchResponse.resultsOf : SearchResponse → List Song
  | .err _ rs => rs
  | .ok _ _ _ _ rs => rs

/-- Whether the response is the error shape. -/
def SearchResponse.isErr : SearchResponse → Bool
  | .err _ _ => true
  | .ok _ _ _ _ _ => false

/-- Observable outcome of one `/search` request: the response plus, for the
pipeline-order claims, the platforms that were passed to
`music_api.search_music` and the aggregated `all_results` list. -/
structure SearchOutcome where
  response : SearchResponse
  queriedPlatforms : List String
  allResults : List Song

/-- Embedding of the `search` endpoint (lines 597-696): strip the query and
reject it when empty; query the local index first; when it returned fewer
than 5 songs run the online loop over `['netease', 'qq']`; append the online
results to the local ones; dedup, truncate to `limit`, and fall back to mock
data when nothing survived. -/
def search (env : SearchEnv) (q0 : String) (limit : Nat) : SearchOutcome :=
  let query := pyStrip q0
  if query = "" then ⟨.err "搜索关键词不能为空" [], [], []⟩
  else
    let local_results := search_local_elasticsearch env.localSearcher limit
    let ot := if local_results.length < 5 then onlineLoop env ["netease", "qq"] else ([], [])
    let all_results := local_results ++ ot.1
    let final := searchFinal limit all_results query
    ⟨.ok query final.length all_results.length local_results.length final, ot.2, all_results⟩

example :
    dedupSongs 20
      [{ id := "1", name := " A ", artist := .str "x" },
       { id := "2", name := "a", artist := .str "x" },
       { id := "3", name := "", artist := .str "y" }] []
    = [{ id := "1", name := " A ", artist := .str "x" }] := by decide

example :
    (search { localSearcher := none, mainSearch := fun _ => .ok [],
              neteaseBackup := .ok [] } "q" 1).response.resultsOf.length = 2 := by decide

example :
    (search { localSearcher := none, mainSearch := fun _ => .ok [],
              neteaseBackup := .ok [] } "  " 1).response.isErr = true := by decide

/-! ## `MusicAPIProxy._make_request` (lines 253-283) -/

/-- Outcome of one HTTP attempt against an API endpoint: a 200 response whose
body parses as JSON (`.ok`), a 200 response whose body fails JSON parsing
(`.badJson`, lines 272-274), or a non-200 status / raised exception
(`.fail`, lines 275-279). `α` is the type of the parsed JSON data. -/
inductive ReqOutcome (α : Type) where
  | ok (d : α)
  | badJson
  | fail
deriving DecidableEq

/-- Recursion core of `_make_request` with the remaining retry budget
`fuel = len(api_endpoints) - retry_count` made explicit (the code's guard
`retry_count >= len(self.api_endpoints)` is exactly `fuel = 0`).  Returns the
parsed data (or `none`) together with the list of endpoint indices attempted.
On `.ok` the data is returned (line 271); on `.badJson` the function returns
`None` immediately (line 274); on `.fail` it rotates `current_api` to
`(current + 1) % n` and retries (lines 282-283). -/
def makeRequestGo {α : Type} (n : Nat) (resp : Nat → ReqOutcome α) :
    Nat → Nat → Option α × List Nat
  | _, 0 => (none, [])
  | current, fuel + 1 =>
    match resp current with
    | .ok d => (some d, [current])
    | .badJson => (none, [current])
    | .fail =>
      let r := makeRequestGo n resp ((current + 1) % n) fuel
      (r.1, current :: r.2)

/-- Embedding of `MusicAPIProxy._make_request(params, retry_count)` over `n`
configured endpoints whose attempt outcomes are given by `resp`; `current` is
`self.current_api` at call time. -/
def make_request {α : Type} (n : Nat) (resp : Nat → ReqOutcome α)
    (current retry : Nat) : Option α × List Nat :=
  makeRequestGo n resp current (n - retry)

example :
    make_request 3 (fun i => if i = 0 then .badJson else ReqOutcome.ok 7) 0 0
      = (none, [0]) := by decide

example :
    make_request 3 (fun i => if i = 2 then ReqOutcome.ok 9 else .fail) 1 0
      = (some 9, [1, 2]) := by decide

example :
    make_request 3 (fun _ => (ReqOutcome.fail : ReqOutcome Nat)) 0 0
      = (none, [0, 1, 2]) := by decide

/-! ## The `analyzed_songs` SQLite table (lines 22-91, 1042-1077) -/

/-- A row of the `analyzed_songs` table (lines 22-39): `id` is the
autoincrement primary key, and `UNIQUE(song_id, source)` is declared. -/
structure AnalyzedRow where
  id : Nat
  song_id : String
  source : String
  name : String
  artist : String
  album : String
  lyricist : String
  composer : String
  platform_name : String
  lyric_lines : Nat
  word_count : Nat
  has_lyrics : Bool
deriving DecidableEq

/-- The lyric-analysis block computed by `/song_detail` (lines 912-916, 964-968). -/
structure Analysis where
  lyric_lines : Nat
  word_count : Nat
  has_lyrics : Bool
deriving DecidableEq

/-- The song-detail dict built by `/song_detail` (lines 902-917, 952-969). -/
structure SongDetail where
  id : String
  name : String
  artist : String
  album : String
  lyricist : String
  composer : String
  source : String
  platform_name : String
  lyric : String
  tlyric : String := ""
  cover_url : String := ""
  analysis : Analysis
deriving DecidableEq

/-- The row inserted for a song-detail dict by `add_analyzed_song`
(lines 62-80); `newId` models the autoincrement id assigned by SQLite. -/
def rowOfDetail (newId : Nat) (d : SongDetail) : AnalyzedRow :=
  { id := newId, song_id := d.id, source := d.source, name := d.name,
    artist := d.artist, album := d.album, lyricist := d.lyricist,
    composer := d.composer, platform_name := d.platform_name,
    lyric_lines := d.analysis.lyric_lines, word_count := d.analysis.word_count,
    has_lyrics := d.analysis.has_lyrics }

/-- Embedding of `add_analyzed_song` (lines 53-91): an
`INSERT OR REPLACE` keyed on `(song_id, source)` drops any existing row with
that key and appends the fresh row. -/
def add_analyzed_song (newId : Nat) (d : SongDetail) (db : List AnalyzedRow) :
    List AnalyzedRow :=
  (db.filter (fun r => decide (¬(r.song_id = d.id ∧ r.source = d.source)))) ++ [rowOfDetail newId d]

/-- The `UNIQUE(song_id, source)` table invariant. -/
def analyzedInv (db : List AnalyzedRow) : Prop :=
  db.Pairwise (fun a b => ¬(a.song_id = b.song_id ∧ a.source = b.source))

/-! ## The `/song_detail` endpoint (lines 881-981) -/

/-- Lyric line count (lines 899, 942): non-blank lines of the text split on
newlines.  The online branch guards with `if lyric_text else 0`, which agrees
with this count on the empty string. -/
def lyric_line_count (t : String) : Nat :=
  ((pySplitLines t).filter (fun line => pyStrip line ≠ "")).length

/-- Lyric word count (lines 900, 943): the length after removing every `'\n'`
and `' '` character. -/
def lyric_word_count (t : String) : Nat :=
  (t.data.filter (fun c => !(c = '\n' || c = ' '))).length

/-- The `_source` document of a local song, as read by `/song_detail`
(lines 894-908). -/
structure LocalSongData where
  song : String := ""
  singer : String := ""
  album : String := ""
  author : String := ""
  composer : String := ""
  geci : String := ""
deriving DecidableEq

/-- `self.platforms` of `MusicAPIProxy` (lines 240-243). -/
def platforms : List (String × String) := [("netease", "网易云音乐"), ("qq", "QQ音乐")]

/-- `self.platforms.get(source, source)` (line 960). -/
def platformNameOf (src : String) : String := ((platforms.lookup src).getD src)

/-- Environment of one `/song_detail` request: whether `local_searcher` is
available, the `es.get` outcome for the local branch (`.error` models a raised
exception), the `(lyric, tlyric)` pair returned by `music_api.get_lyrics`
(which never raises: it catches internally, lines 365-367), and the cover URL. -/
structure DetailEnv where
  localAvailable : Bool
  esGet : Except Unit LocalSongData
  lyricsResult : String × String
  coverResult : String

/-- The JSON body returned by `/song_detail`. -/
inductive DetailResponse where
  | ok (d : SongDetail)
  | err (msg : String)
deriving DecidableEq

/-- Embedding of the `get_song_detail` endpoint (lines 881-981).  The handler
also passes the updated `analyzed_songs` table out; `newId` models the
autoincrement id used when a row is written.  Request arguments `name`,
`artist`, `album`, `lyricist`, `composer` are the values of
`request.args.get(...)` after defaults (lines 931-935). -/
def get_song_detail (env : DetailEnv) (song_id source name artist album lyricist
    composer : String) (newId : Nat) (db : List AnalyzedRow) :
    DetailResponse × List AnalyzedRow :=
  if song_id = "" then (.err "歌曲ID不能为空", db)
  else if source = "local" ∧ env.localAvailable then
    match env.esGet with
    | .error _ => (.err "获取歌曲详情失败", db)
    | .ok sd =>
      let lyric_text := sd.geci
      let detail : SongDetail :=
        { id := song_id, name := sd.song, artist := sd.singer, album := sd.album,
          lyricist := sd.author, composer := sd.composer, source := "local",
          platform_name := "本地数据库", lyric := lyric_text,
          analysis := ⟨lyric_line_count lyric_text, lyric_word_count lyric_text,
                       pyStrip lyric_text ≠ ""⟩ }
      (.ok detail, add_analyzed_song newId detail db)
  else
    let lyric_text := env.lyricsResult.1
    let detail : SongDetail :=
      { id := song_id, name := name, artist := artist, album := album,
        lyricist := lyricist, composer := composer, source := source,
        platform_name := platformNameOf source, lyric := lyric_text,
        tlyric := env.lyricsResult.2, cover_url := env.coverResult,
        analysis := ⟨lyric_line_count lyric_text, lyric_word_count lyric_text,
                     pyStrip lyric_text ≠ ""⟩ }
    (.ok detail, add_analyzed_song newId detail db)

/-! ## The `/delete_analyzed_songs` endpoint (lines 1042-1077) -/

/-- The JSON body returned by `/delete_analyzed_songs`. -/
inductive DeleteResponse where
  | ok (deleted_count : Nat)
  | fail (error : String)
deriving DecidableEq

/-- Whether the response carries `success: True`. -/
def DeleteResponse.isSuccess : DeleteResponse → Bool
  | .ok _ => true
  | .fail _ => false

/-- Embedding of `delete_analyzed_songs` (lines 1042-1077): `password` is
`data.get('password')` (`none` when absent), `song_ids` is
`data.get('song_ids', [])`.  The `DELETE ... WHERE id IN (...)` statement
removes exactly the rows whose primary key is listed, and `cursor.rowcount`
reports how many were removed. -/
def delete_analyzed_songs (password : Option String) (song_ids : List Nat)
    (db : List AnalyzedRow) : DeleteResponse × List AnalyzedRow :=
  if password ≠ some "ozh02264632" then (.fail "密码错误", db)
  else if song_ids = [] then (.fail "未选择要删除的歌曲", db)
  else
    ((.ok ((db.filter (fun r => song_ids.contains r.id)).length)),
      db.filter (fun r => !song_ids.contains r.id))

example :
    delete_analyzed_songs (some "wrong") [1]
      [{ id := 1, song_id := "s", source := "netease", name := "n", artist := "a",
         album := "", lyricist := "", composer := "", platform_name := "",
         lyric_lines := 0, word_count := 0, has_lyrics := false }]
      = (.fail "密码错误",
         [{ id := 1, song_id := "s", source := "netease", name := "n", artist := "a",
            album := "", lyricist := "", composer := "", platform_name := "",
            lyric_lines := 0, word_count := 0, has_lyrics := false }]) := by decide

/-! ## `find_lyric_matches` (lines 488-521) -/

/-- Whether `needle` is an initial segment of `hay` (Python substring test at
a fixed position). -/
def isPrefixList : List Char → List Char → Bool
  | [], _ => true
  | _ :: _, [] => false
  | a :: as, b :: bs => a = b && isPrefixList as bs

/-- Embedding of Python `hay.find(needle)`: index of the first position where
`needle` occurs, or `none` (Python returns `-1`, but the code only calls
`find` after an `in` test, so the occurrence exists there). -/
def findSub (needle : List Char) : List Char → Option Nat
  | [] => if isPrefixList needle [] then some 0 else none
  | c :: t =>
    if isPrefixList needle (c :: t) then some 0
    else (findSub needle t).map (fun i => i + 1)

/-- Consume one or more digits (greedy, matching `\d+` followed by a
non-digit literal). -/
def afterDigits1 : List Char → Option (List Char)
  | c :: rest => if c.isDigit then some (rest.dropWhile Char.isDigit) else none
  | [] => none

/-- Consume one expected literal character. -/
def expectChar (c : Char) : List Char → Option (List Char)
  | d :: rest => if d = c then some rest else none
  | [] => none

/-- Match the time-tag regex `\[\d+:\d+\.\d+\]` (line 497) at the head of the
list, returning the remainder after the tag. -/
def matchTag (l : List Char) : Option (List Char) :=
  (expectChar '[' l).bind fun r1 =>
  (afterDigits1 r1).bind fun r2 =>
  (expectChar ':' r2).bind fun r3 =>
  (afterDigits1 r3).bind fun r4 =>
  (expectChar '.' r4).bind fun r5 =>
  (afterDigits1 r5).bind fun r6 =>
  expectChar ']' r6

theorem afterDigits1_length {l r : List Char} (h : afterDigits1 l = some r) :
    r.length < l.length := by
  match l with
  | [] => simp [afterDigits1] at h
  | c :: rest =>
    simp only [afterDigits1] at h
    split at h
    · cases h
      have := (List.dropWhile_sublist (l := rest) Char.isDigit).length_le
      simp only [List.length_cons]
      omega
    · cases h

theorem expectChar_length {c : Char} {l r : List Char} (h : expectChar c l = some r) :
    r.length < l.length := by
  match l with
  | [] => simp [expectChar] at h
  | d :: rest =>
    simp only [expectChar] at h
    split at h
    · cases h; simp
    · cases h

theorem matchTag_length {l r : List Char} (h : matchTag l = some r) :
    r.length < l.length := by
  simp only [matchTag, Option.bind_eq_some] at h
  obtain ⟨r1, h1, r2, h2, r3, h3, r4, h4, r5, h5, r6, h6, h7⟩ := h
  have := expectChar_length h1
  have := afterDigits1_length h2
  have := expectChar_length h3
  have := afterDigits1_length h4
  have := expectChar_length h5
  have := afterDigits1_length h6
  have := expectChar_length h7
  omega

/-- Structural core of `removeTags`: scan left to right, deleting each
leftmost time-tag match.  Every step consumes at least one character (a
matched tag even more, by `matchTag_length`), so `fuel = l.length` always
suffices and the fuel parameter is only there to make the recursion
structural. -/
def removeTagsGo : Nat → List Char → List Char
  | 0, l => l
  | _, [] => []
  | fuel + 1, c :: rest =>
    match matchTag (c :: rest) with
    | some r => removeTagsGo fuel r
    | none => c :: removeTagsGo fuel rest

/-- Embedding of `re.sub(r'\[\d+:\d+\.\d+\]', '', lyric_text)` (line 497). -/
def removeTags (l : List Char) : List Char := removeTagsGo l.length l

/-- Embedding of `find_lyric_matches(lyric_text, query)` minus the outer
guard: iterate over the (cleaned, enumerated) lines, skip blank ones, and for
each line whose lowercase form contains the lowercase query record the match
(lines 503-516).  `qlow` is `query.lower()` as characters and `qlen` is
`len(query)`. -/
def collectMatches (qlow : List Char) (qlen : Nat) : List String → Nat → List LyricMatch
  | [], _ => []
  | line :: rest, i =>
    if pyStrip line = "" then collectMatches qlow qlen rest (i + 1)
    else
      match findSub qlow (pyLower (pyStrip line)).data with
      | some pos =>
        { line_number := i, line_text := pyStrip line, start_pos := pos,
          match_text := ⟨((pyStrip line).data.drop pos).take qlen⟩ }
          :: collectMatches qlow qlen rest (i + 1)
      | none => collectMatches qlow qlen rest (i + 1)

/-- Embedding of `find_lyric_matches` (lines 488-521): empty inputs yield
`[]`; otherwise strip the time tags, strip the whole text, split into lines,
collect the per-line matches and keep at most the first 5 (line 518). -/
def find_lyric_matches (lyric_text query : String) : List LyricMatch :=
  if lyric_text = "" ∨ query = "" then []
  else
    let clean_lyric := pyStrip ⟨removeTags lyric_text.data⟩
    let lines := pySplitLines clean_lyric
    (collectMatches (pyLower query).data query.length lines 1).take 5

/-! ## The `/suggest` endpoint (lines 698-772) -/

/-- A suggestion dict as built by `search_suggest` (lines 747-759). -/
structure Suggestion where
  id : String
  name : String
  artist : String
  album : String
  platform : String
  platform_name : String
  source : String
  pic_id : String
  lyric_id : String
  lyricist : String
  composer : String
deriving DecidableEq

/-- Environment of one `/suggest` request: whether `local_searcher` is
available, the songs returned by `search_local_elasticsearch(query, 3)`, and
those returned by `music_api.search_music(query, 'netease', 6, 1)` (neither
of which raises: both catch internally). -/
structure SuggestEnv where
  localAvailable : Bool
  localSuggestions : List Song
  neteaseSuggestions : List Song

/-- The dedup key of line 743: `f"{name_str}-{artist_str}".lower()`, where
`name_str` is the trimmed (not lowercased) name. -/
def suggestKey (nstr astr : String) : String := pyLower (nstr ++ "-" ++ astr)

/-- The suggestion built for a kept song (lines 747-759). -/
def mkSuggestion (s : Song) (nstr astr : String) : Suggestion :=
  { id := s.id, name := nstr, artist := astr, album := s.album,
    platform := s.platform, platform_name := s.platform_name,
    source := s.source, pic_id := s.pic_id, lyric_id := s.lyric_id,
    lyricist := s.lyricist, composer := s.composer }

/-- The dedup loop of `search_suggest` (lines 731-763): like the `/search`
one but with key `f"{name}-{artist}".lower()` and no `key != '-'` test;
`limit` is again the remaining capacity, checked after each append. -/
def suggestDedup (limit : Nat) : List Song → List String → List Suggestion
  | [], _ => []
  | s :: rest, seen =>
    if suggestKey (pyStrip s.name) (artistToStr s.artist) ∉ seen ∧ pyStrip s.name ≠ "" then
      if limit ≤ 1 then [mkSuggestion s (pyStrip s.name) (artistToStr s.artist)]
      else mkSuggestion s (pyStrip s.name) (artistToStr s.artist) ::
        suggestDedup (limit - 1) rest (suggestKey (pyStrip s.name) (artistToStr s.artist) :: seen)
    else suggestDedup limit rest seen

/-- Embedding of the `search_suggest` endpoint body (lines 698-768): a
stripped query shorter than 2 characters yields no suggestions; otherwise the
local suggestions (when the local searcher exists) are taken first, the
netease suggestions are appended only when the locals number fewer than
`limit`, and the aggregate is deduplicated and capped. -/
def search_suggest (env : SuggestEnv) (q0 : String) (limit : Nat) : List Suggestion :=
  let query := pyStrip q0
  if query.length < 2 then []
  else
    let localS := if env.localAvailable then env.localSuggestions else []
    let all := localS ++ (if localS.length < limit then env.neteaseSuggestions else [])
    suggestDedup limit all []

/-- The `except` clause of `search_suggest` (lines 770-772): any exception in
the handler body produces `{'suggestions': []}`. -/
def suggestHandler (body : Except Unit (List Suggestion)) : List Suggestion :=
  match body with
  | .ok r => r
  | .error _ => []

example :
    find_lyric_matches "[00:01.000]Hello World\nla la\n\n" "WORLD"
      = [{ line_number := 1, line_text := "Hello World", start_pos := 6,
           match_text := "World" }] := by decide

example :
    (search_suggest
      { localAvailable := true,
        localSuggestions := [{ id := "1", name := " ab", artist := .str "X" }],
        neteaseSuggestions := [] } "ab" 0).length = 1 := by decide

/-! ## Lemmas about the `/search` dedup loop -/

theorem normName_processSong (s : Song) : normName (processSong s) = normName s := rfl

theorem songKey_processSong (s : Song) : songKey (processSong s) = songKey s := rfl

theorem name_ne_of_normName_ne {s : Song} (h : normName s ≠ "") : s.name ≠ "" := by
  intro he
  apply h
  show pyStrip (pyLower s.name) = ""
  rw [he]
  rfl

theorem string_eq_empty_of_length {a : String} (h : a.length = 0) : a = "" := by
  cases a with
  | mk l =>
    cases l with
    | nil => rfl
    | cons c cs => simp [String.length] at h

theorem songKey_dash {s : Song} (h : songKey s = "-") : normName s = "" := by
  have hl := congrArg String.length h
  rw [songKey] at hl
  simp only [String.length_append] at hl
  have h1 : ("-" : String).length = 1 := rfl
  rw [h1] at hl
  exact string_eq_empty_of_length (by omega)

theorem dedupSongs_length_le :
    ∀ (xs : List Song) (limit : Nat) (seen : List String), 1 ≤ limit →
      (dedupSongs limit xs seen).length ≤ limit := by
  intro xs
  induction xs with
  | nil => intro limit seen _; simp [dedupSongs]
  | cons s rest ih =>
    intro limit seen h
    simp only [dedupSongs]
    split
    · split
      · simpa using h
      · simp only [List.length_cons]
        have := ih (limit - 1) (songKey s :: seen) (by omega)
        omega
    · exact ih limit seen h

theorem dedupSongs_mem :
    ∀ (xs : List Song) (limit : Nat) (seen : List String),
      ∀ o ∈ dedupSongs limit xs seen,
        normName o ≠ "" ∧ songKey o ∉ seen ∧
        ∃ i, ∃ hi : i < xs.length,
          processSong (xs.get ⟨i, hi⟩) = o ∧
          ∀ j, ∀ hj : j < xs.length, j < i →
            normName (xs.get ⟨j, hj⟩) ≠ "" → songKey (xs.get ⟨j, hj⟩) ≠ songKey o := by
  intro xs
  induction xs with
  | nil => intro limit seen o ho; simp [dedupSongs] at ho
  | cons s rest ih =>
    intro limit seen o ho
    simp only [dedupSongs] at ho
    by_cases hc : songKey s ∉ seen ∧ songKey s ≠ "-" ∧ normName s ≠ ""
    · rw [if_pos hc] at ho
      have head_case : o = processSong s →
          normName o ≠ "" ∧ songKey o ∉ seen ∧
          ∃ i, ∃ hi : i < (s :: rest).length,
            processSong ((s :: rest).get ⟨i, hi⟩) = o ∧
            ∀ j, ∀ hj : j < (s :: rest).length, j < i →
              normName ((s :: rest).get ⟨j, hj⟩) ≠ "" →
              songKey ((s :: rest).get ⟨j, hj⟩) ≠ songKey o := by
        intro he
        subst he
        refine ⟨?_, ?_, 0, by simp, rfl, ?_⟩
        · rw [normName_processSong]; exact hc.2.2
        · rw [songKey_processSong]; exact hc.1
        · intro j hj hji
          exact absurd hji (by omega)
      by_cases hl : limit ≤ 1
      · rw [if_pos hl] at ho
        simp only [List.mem_singleton] at ho
        exact head_case ho
      · rw [if_neg hl] at ho
        rcases List.mem_cons.mp ho with ho | ho
        · exact head_case ho
        · obtain ⟨hn, hs, i, hi, hp, hf⟩ := ih (limit - 1) (songKey s :: seen) o ho
          have hs' : songKey o ∉ seen := fun hmem => hs (List.mem_cons_of_mem _ hmem)
          have hne : songKey o ≠ songKey s := by
            intro he
            exact hs (by rw [he]; exact List.mem_cons_self _ _)
          refine ⟨hn, hs', i + 1, by simpa using hi, hp, ?_⟩
          intro j hj hji hnm
          cases j with
          | zero => exact fun he => hne he.symm
          | succ j1 =>
            have hj1 : j1 < rest.length := by simpa using hj
            exact hf j1 hj1 (by omega) hnm
    · rw [if_neg hc] at ho
      obtain ⟨hn, hs, i, hi, hp, hf⟩ := ih limit seen o ho
      refine ⟨hn, hs, i + 1, by simpa using hi, hp, ?_⟩
      intro j hj hji hnm
      cases j with
      | zero =>
        by_cases h1 : songKey s ∈ seen
        · intro he; exact hs (he ▸ h1)
        · by_cases h2 : songKey s = "-"
          · exact absurd (songKey_dash h2) hnm
          · exact absurd ⟨h1, h2, hnm⟩ hc
      | succ j1 =>
        have hj1 : j1 < rest.length := by simpa using hj
        exact hf j1 hj1 (by omega) hnm

theorem dedupSongs_pairwise :
    ∀ (xs : List Song) (limit : Nat) (seen : List String),
      (dedupSongs limit xs seen).Pairwise (fun a b => songKey a ≠ songKey b) := by
  intro xs
  induction xs with
  | nil => intro limit seen; simp [dedupSongs]
  | cons s rest ih =>
    intro limit seen
    simp only [dedupSongs]
    split
    · split
      · simp
      · refine List.Pairwise.cons ?_ (ih _ _)
        intro b hb
        have hbs := (dedupSongs_mem rest (limit - 1) (songKey s :: seen) b hb).2.1
        rw [songKey_processSong]
        intro he
        exact hbs (by rw [← he]; exact List.mem_cons_self _ _)
    · exact ih _ _

/-! ## Lemmas about `searchFinal` -/

theorem search_mock_data_5_length (query : String) : (search_mock_data query 5).length = 2 := rfl

theorem searchFinal_length_le (limit : Nat) (all : List Song) (query : String)
    (hl : 1 ≤ limit) : (searchFinal limit all query).length ≤ max limit 2 := by
  simp only [searchFinal]
  split
  · rw [search_mock_data_5_length]
    exact le_max_right _ _
  · exact le_trans (dedupSongs_length_le all limit [] hl) (le_max_left _ _)

theorem searchFinal_of_ne (limit : Nat) (all : List Song) (query : String)
    (h : dedupSongs limit all [] ≠ []) :
    searchFinal limit all query = dedupSongs limit all [] := by
  simp only [searchFinal]
  rw [if_neg h]

/-- Environment in which every outbound source fails (used in witnesses). -/
def envAllFail : SearchEnv :=
  { localSearcher := none, mainSearch := fun _ => .error (), neteaseBackup := .error () }

/-- Environment in which every source succeeds with no results. -/
def envAllEmpty : SearchEnv :=
  { localSearcher := none, mainSearch := fun _ => .ok [], neteaseBackup := .ok [] }

/-! ## Claim C1 -/

/-- Claim C1: for every `/search` request with a non-empty query, the local
index is consulted first and the online platforms (`netease` then `qq`) are
passed to `music_api.search_music` exactly when the local search returned
fewer than 5 results (in particular never when it returned 5 or more), the
online results are appended after the local results, and the response body is
the dedup/truncate/mock-fallback of that aggregated list. -/
theorem claim_C1_pipeline_order (env : SearchEnv) (q0 : String) (limit : Nat)
    (hq : pyStrip q0 ≠ "") :
    (search env q0 limit).queriedPlatforms
      = (if (search_local_elasticsearch env.localSearcher limit).length < 5
         then ["netease", "qq"] else [])
    ∧ (5 ≤ (search_local_elasticsearch env.localSearcher limit).length →
        (search env q0 limit).queriedPlatforms = [])
    ∧ (search env q0 limit).allResults
      = search_local_elasticsearch env.localSearcher limit
        ++ (if (search_local_elasticsearch env.localSearcher limit).length < 5
            then platformResults env "netease" ++ platformResults env "qq" else [])
    ∧ (search env q0 limit).response
      = SearchResponse.ok (pyStrip q0)
          (searchFinal limit (search env q0 limit).allResults (pyStrip q0)).length
          (search env q0 limit).allResults.length
          (search_local_elasticsearch env.localSearcher limit).length
          (searchFinal limit (search env q0 limit).allResults (pyStrip q0)) := by
  by_cases h5 : (search_local_elasticsearch env.localSearcher limit).length < 5
  · exact ⟨by simp [search, hq, h5, onlineLoop],
      fun hge => absurd hge (by omega),
      by simp [search, hq, h5, onlineLoop],
      by simp [search, hq, h5, onlineLoop]⟩
  · exact ⟨by simp [search, hq, h5, onlineLoop],
      fun _ => by simp [search, hq, h5, onlineLoop],
      by simp [search, hq, h5, onlineLoop],
      by simp [search, hq, h5, onlineLoop]⟩

theorem claim_C1_pipeline_order_witness :
    pyStrip "hi" ≠ "" ∧
    ((search envAllFail "hi" 20).queriedPlatforms
      = (if (search_local_elasticsearch envAllFail.localSearcher 20).length < 5
         then ["netease", "qq"] else [])
    ∧ (5 ≤ (search_local_elasticsearch envAllFail.localSearcher 20).length →
        (search envAllFail "hi" 20).queriedPlatforms = [])
    ∧ (search envAllFail "hi" 20).allResults
      = search_local_elasticsearch envAllFail.localSearcher 20
        ++ (if (search_local_elasticsearch envAllFail.localSearcher 20).length < 5
            then platformResults envAllFail "netease" ++ platformResults envAllFail "qq" else [])
    ∧ (search envAllFail "hi" 20).response
      = SearchResponse.ok (pyStrip "hi")
          (searchFinal 20 (search envAllFail "hi" 20).allResults (pyStrip "hi")).length
          (search envAllFail "hi" 20).allResults.length
          (search_local_elasticsearch envAllFail.localSearcher 20).length
          (searchFinal 20 (search envAllFail "hi" 20).allResults (pyStrip "hi"))) :=
  ⟨by decide, claim_C1_pipeline_order envAllFail "hi" 20 (by decide)⟩

/-! ## Claim C2 -/

/-- Claim C2 (amended): the `/search` dedup stage (lines 648-677) keeps no two
songs with the same key (lowercased, trimmed name joined to the artist
string), every kept song has a non-empty name, and each kept song is the
first song of the aggregated local-then-online list with its key *among the
songs whose normalised name is non-empty* (a song with an empty name is never
kept, but its key can coincide with a later kept song's key, so the overall
first occurrence of a key need not be the kept one). -/
theorem claim_C2_dedup_by_key (limit : Nat) (xs : List Song) :
    (dedupSongs limit xs []).Pairwise (fun a b => songKey a ≠ songKey b)
    ∧ (∀ o ∈ dedupSongs limit xs [], o.name ≠ "")
    ∧ (∀ o ∈ dedupSongs limit xs [],
        ∃ i, ∃ hi : i < xs.length,
          processSong (xs.get ⟨i, hi⟩) = o ∧
          ∀ j, ∀ hj : j < xs.length, j < i →
            normName (xs.get ⟨j, hj⟩) ≠ "" →
            songKey (xs.get ⟨j, hj⟩) ≠ songKey o) := by
  refine ⟨dedupSongs_pairwise xs limit [], ?_, ?_⟩
  · intro o ho
    exact name_ne_of_normName_ne (dedupSongs_mem xs limit [] o ho).1
  · intro o ho
    exact (dedupSongs_mem xs limit [] o ho).2.2

theorem claim_C2_dedup_by_key_witness :
    (dedupSongs 20 [{ id := "1", name := "A", artist := ArtistVal.str "B" }] []).Pairwise
        (fun a b => songKey a ≠ songKey b)
    ∧ (∀ o ∈ dedupSongs 20 [{ id := "1", name := "A", artist := ArtistVal.str "B" }] [],
        o.name ≠ "")
    ∧ (∀ o ∈ dedupSongs 20 [{ id := "1", name := "A", artist := ArtistVal.str "B" }] [],
        ∃ i, ∃ hi : i < [({ id := "1", name := "A", artist := ArtistVal.str "B" } : Song)].length,
          processSong ([({ id := "1", name := "A", artist := ArtistVal.str "B" } : Song)].get
              ⟨i, hi⟩) = o ∧
          ∀ j, ∀ hj : j < [({ id := "1", name := "A", artist := ArtistVal.str "B" } : Song)].length,
            j < i →
            normName ([({ id := "1", name := "A", artist := ArtistVal.str "B" } : Song)].get
                ⟨j, hj⟩) ≠ "" →
            songKey ([({ id := "1", name := "A", artist := ArtistVal.str "B" } : Song)].get
                ⟨j, hj⟩) ≠ songKey o) :=
  claim_C2_dedup_by_key 20 [{ id := "1", name := "A", artist := ArtistVal.str "B" }]

/-- Claim C2 counterexample: the aggregated list below contains two songs with
the same key `"-x-a"` (the `-` separator lets an empty-named song collide with
a named one), the first of which has an empty name.  The dedup loop keeps the
*second* song, so "the first occurrence of each key is the one kept" is false
as stated. -/
theorem claim_C2_counterexample :
    dedupSongs 20
      [{ id := "0", name := "", artist := ArtistVal.str "x-a" },
       { id := "1", name := "-x", artist := ArtistVal.str "a" }] []
      = [processSong { id := "1", name := "-x", artist := ArtistVal.str "a" }]
    ∧ songKey { id := "0", name := "", artist := ArtistVal.str "x-a" }
        = songKey { id := "1", name := "-x", artist := ArtistVal.str "a" }
    ∧ processSong { id := "1", name := "-x", artist := ArtistVal.str "a" }
        ≠ processSong { id := "0", name := "", artist := ArtistVal.str "x-a" } := by
  decide

/-! ## Claim C4 -/

/-- Claim C4 (amended): for every `limit ≥ 1` the deduplicated results are
truncated to at most `limit` songs whenever anything survives dedup; when
nothing survives, the endpoint returns the 2 mock demo songs regardless of
`limit`, so the response size is only bounded by `max limit 2`. -/
theorem claim_C4_truncation (env : SearchEnv) (q0 : String) (limit : Nat)
    (hl : 1 ≤ limit) :
    (search env q0 limit).response.resultsOf.length ≤ max limit 2
    ∧ (dedupSongs limit (search env q0 limit).allResults [] ≠ [] →
        (search env q0 limit).response.resultsOf.length ≤ limit) := by
  by_cases hq : pyStrip q0 = ""
  · constructor
    · simp [search, hq, SearchResponse.resultsOf]
    · intro h
      simp [search, hq, dedupSongs] at h
  · have hall : (search env q0 limit).response.resultsOf
        = searchFinal limit (search env q0 limit).allResults (pyStrip q0) := by
      simp [search, hq, SearchResponse.resultsOf]
    constructor
    · rw [hall]
      exact searchFinal_length_le _ _ _ hl
    · intro h
      rw [hall, searchFinal_of_ne _ _ _ h]
      exact dedupSongs_length_le _ _ _ hl

theorem claim_C4_truncation_witness :
    1 ≤ 20 ∧
    ((search envAllFail "hi" 20).response.resultsOf.length ≤ max 20 2
    ∧ (dedupSongs 20 (search envAllFail "hi" 20).allResults [] ≠ [] →
        (search envAllFail "hi" 20).response.resultsOf.length ≤ 20)) :=
  ⟨by decide, claim_C4_truncation envAllFail "hi" 20 (by decide)⟩

/-- Claim C4 counterexample: with `limit = 1` and every source empty, nothing
survives dedup, the mock fallback supplies 2 demo songs, and the response
exceeds the requested limit. -/
theorem claim_C4_counterexample :
    (search envAllEmpty "q" 1).response.resultsOf.length = 2
    ∧ ¬((search envAllEmpty "q" 1).response.resultsOf.length ≤ 1) := by
  decide

/-! ## Claim C7 -/

/-- Claim C7: search aggregation is best-effort.  With a non-empty query the
response is never the error shape; an absent or failing local searcher
contributes `[]`; a platform whose main search raises contributes `[]`; when
the main netease search returns no results the backup's results (or `[]` if
it raises) are used; and the response is still assembled from the remaining
sources' contributions. -/
theorem claim_C7_best_effort (env : SearchEnv) (q0 : String) (limit : Nat)
    (hq : pyStrip q0 ≠ "") :
    (search env q0 limit).response.isErr = false
    ∧ search_local_elasticsearch none limit = []
    ∧ (∀ e : Unit, search_local_elasticsearch (some (.error e)) limit = [])
    ∧ (∀ src, env.mainSearch src = .error () → platformResults env src = [])
    ∧ (env.mainSearch "netease" = .ok [] →
        platformResults env "netease"
          = (match env.neteaseBackup with | .ok bs => bs | .error _ => []))
    ∧ (search env q0 limit).allResults
      = search_local_elasticsearch env.localSearcher limit
        ++ (if (search_local_elasticsearch env.localSearcher limit).length < 5
            then platformResults env "netease" ++ platformResults env "qq" else []) := by
  refine ⟨by simp [search, hq, SearchResponse.isErr], rfl, fun e => rfl, ?_, ?_, ?_⟩
  · intro src h
    simp [platformResults, h]
  · intro h
    cases hb : env.neteaseBackup with
    | ok bs => simp [platformResults, h, hb]
    | error e => simp [platformResults, h, hb]
  · by_cases h5 : (search_local_elasticsearch env.localSearcher limit).length < 5
    · simp [search, hq, h5, onlineLoop]
    · simp [search, hq, h5, onlineLoop]

theorem claim_C7_best_effort_witness :
    pyStrip "hi" ≠ "" ∧
    ((search envAllFail "hi" 20).response.isErr = false
    ∧ search_local_elasticsearch none 20 = []
    ∧ (∀ e : Unit, search_local_elasticsearch (some (.error e)) 20 = [])
    ∧ (∀ src, envAllFail.mainSearch src = .error () → platformResults envAllFail src = [])
    ∧ (envAllFail.mainSearch "netease" = .ok [] →
        platformResults envAllFail "netease"
          = (match envAllFail.neteaseBackup with | .ok bs => bs | .error _ => []))
    ∧ (search envAllFail "hi" 20).allResults
      = search_local_elasticsearch envAllFail.localSearcher 20
        ++ (if (search_local_elasticsearch envAllFail.localSearcher 20).length < 5
            then platformResults envAllFail "netease" ++ platformResults envAllFail "qq"
            else [])) :=
  ⟨by decide, claim_C7_best_effort envAllFail "hi" 20 (by decide)⟩

/-! ## Lemmas about `make_request` -/

theorem rot_index (n current k : Nat) :
    ((current + 1) % n + k) % n = (current + (k + 1)) % n := by
  rw [Nat.mod_add_mod]
  congr 1
  omega

theorem makeRequestGo_trace_length {α : Type} (n : Nat) (resp : Nat → ReqOutcome α) :
    ∀ (fuel current : Nat), (makeRequestGo n resp current fuel).2.length ≤ fuel := by
  intro fuel
  induction fuel with
  | zero => intro current; simp [makeRequestGo]
  | succ fuel ih =>
    intro current
    simp only [makeRequestGo]
    cases resp current with
    | ok d => simp
    | badJson => simp
    | fail =>
      simp only [List.length_cons]
      have := ih ((current + 1) % n)
      omega

theorem makeRequestGo_trace_rotation {α : Type} (n : Nat) (resp : Nat → ReqOutcome α) :
    ∀ (fuel current : Nat), current < n →
      (makeRequestGo n resp current fuel).2
        = (List.range (makeRequestGo n resp current fuel).2.length).map
            (fun i => (current + i) % n) := by
  intro fuel
  induction fuel with
  | zero => intro current _; simp [makeRequestGo]
  | succ fuel ih =>
    intro current hcur
    simp only [makeRequestGo]
    cases resp current with
    | ok d => simp [List.range_succ_eq_map, Nat.mod_eq_of_lt hcur]
    | badJson => simp [List.range_succ_eq_map, Nat.mod_eq_of_lt hcur]
    | fail =>
      have hn : 0 < n := by omega
      have hc1 : (current + 1) % n < n := Nat.mod_lt _ hn
      have htail := ih ((current + 1) % n) hc1
      simp only [List.length_cons]
      rw [List.range_succ_eq_map, List.map_cons, List.map_map]
      congr 1
      · simp [Nat.mod_eq_of_lt hcur]
      · conv_lhs => rw [htail]
        apply List.map_congr_left
        intro a _
        simp only [Function.comp, Nat.succ_eq_add_one]
        exact rot_index n current a

theorem makeRequestGo_trace_nodup {α : Type} (n : Nat) (resp : Nat → ReqOutcome α)
    (fuel current : Nat) (hcur : current < n) (hfuel : fuel ≤ n) :
    (makeRequestGo n resp current fuel).2.Nodup := by
  rw [makeRequestGo_trace_rotation n resp fuel current hcur]
  have hlen := makeRequestGo_trace_length n resp fuel current
  apply List.Nodup.map_on
  · intro x hx y hy hxy
    have hx' : x < (makeRequestGo n resp current fuel).2.length := List.mem_range.mp hx
    have hy' : y < (makeRequestGo n resp current fuel).2.length := List.mem_range.mp hy
    have hmod : x ≡ y [MOD n] := Nat.ModEq.add_left_cancel' current hxy
    have : x % n = y % n := hmod
    rw [Nat.mod_eq_of_lt (by omega), Nat.mod_eq_of_lt (by omega)] at this
    exact this
  · exact List.nodup_range _

theorem makeRequestGo_result {α : Type} (n : Nat) (resp : Nat → ReqOutcome α) :
    ∀ (fuel current : Nat), current < n → ∀ d : α,
      ((makeRequestGo n resp current fuel).1 = some d ↔
        ∃ k, k < fuel ∧ resp ((current + k) % n) = .ok d ∧
          ∀ j < k, resp ((current + j) % n) = .fail) := by
  intro fuel
  induction fuel with
  | zero =>
    intro current _ d
    simp [makeRequestGo]
  | succ fuel ih =>
    intro current hcur d
    have hc0 : (current + 0) % n = current := by
      rw [Nat.add_zero]; exact Nat.mod_eq_of_lt hcur
    simp only [makeRequestGo]
    cases hr : resp current with
    | ok d0 =>
      constructor
      · intro h
        refine ⟨0, by omega, ?_, fun j hj => absurd hj (Nat.not_lt_zero j)⟩
        injection h with h1
        rw [hc0, hr, h1]
      · rintro ⟨k, hk, hok, hfail⟩
        cases k with
        | zero =>
          rw [hc0, hr] at hok
          injection hok with h1
          rw [h1]
        | succ k1 =>
          have := hfail 0 (by omega)
          rw [hc0, hr] at this
          cases this
    | badJson =>
      constructor
      · intro h; cases h
      · rintro ⟨k, hk, hok, hfail⟩
        cases k with
        | zero =>
          rw [hc0, hr] at hok
          cases hok
        | succ k1 =>
          have := hfail 0 (by omega)
          rw [hc0, hr] at this
          cases this
    | fail =>
      have hn : 0 < n := by omega
      have hc1 : (current + 1) % n < n := Nat.mod_lt _ hn
      rw [ih ((current + 1) % n) hc1 d]
      constructor
      · rintro ⟨k, hk, hok, hfail⟩
        refine ⟨k + 1, by omega, ?_, ?_⟩
        · rw [← rot_index]; exact hok
        · intro j hj
          cases j with
          | zero => rw [hc0]; exact hr
          | succ j1 =>
            rw [← rot_index]
            exact hfail j1 (by omega)
      · rintro ⟨k, hk, hok, hfail⟩
        cases k with
        | zero =>
          rw [hc0, hr] at hok
          cases hok
        | succ k1 =>
          refine ⟨k1, by omega, ?_, ?_⟩
          · rw [rot_index]; exact hok
          · intro j hj
            rw [rot_index]
            exact hfail (j + 1) (by omega)

/-! ## Claim C3 -/

/-- Claim C3 (amended): starting at `retry_count 0` with `current_api = current
< n`, `_make_request` attempts at most `n` endpoints, visits them in rotation
order from `current` without repetition, and returns the parsed data iff the
first attempt in rotation order whose outcome is not a failure is a 200
response with parseable JSON, with every earlier attempt failing.  (It does
*not* return `None` exactly when no endpoint yields parseable JSON: a 200
response with unparseable JSON stops the rotation immediately.) -/
theorem claim_C3_make_request_rotation {α : Type} (n : Nat) (resp : Nat → ReqOutcome α)
    (current : Nat) (d : α) (hcur : current < n) :
    (make_request n resp current 0).2.length ≤ n
    ∧ (make_request n resp current 0).2
        = (List.range (make_request n resp current 0).2.length).map (fun i => (current + i) % n)
    ∧ (make_request n resp current 0).2.Nodup
    ∧ ((make_request n resp current 0).1 = some d ↔
        ∃ k, k < n ∧ resp ((current + k) % n) = ReqOutcome.ok d ∧
          ∀ j < k, resp ((current + j) % n) = ReqOutcome.fail) := by
  have h0 : make_request n resp current 0 = makeRequestGo n resp current n := by
    simp [make_request]
  rw [h0]
  exact ⟨makeRequestGo_trace_length n resp n current,
    makeRequestGo_trace_rotation n resp n current hcur,
    makeRequestGo_trace_nodup n resp n current hcur (le_refl n),
    makeRequestGo_result n resp n current hcur d⟩

/-- Attempt outcomes for the C3 witness: only the third endpoint succeeds. -/
def respWit : Nat → ReqOutcome Nat := fun i => if i = 2 then .ok 9 else .fail

theorem claim_C3_witness :
    1 < 3 ∧
    ((make_request 3 respWit 1 0).2.length ≤ 3
    ∧ (make_request 3 respWit 1 0).2
        = (List.range (make_request 3 respWit 1 0).2.length).map (fun i => (1 + i) % 3)
    ∧ (make_request 3 respWit 1 0).2.Nodup
    ∧ ((make_request 3 respWit 1 0).1 = some 9 ↔
        ∃ k, k < 3 ∧ respWit ((1 + k) % 3) = ReqOutcome.ok 9 ∧
          ∀ j < k, respWit ((1 + j) % 3) = ReqOutcome.fail)) :=
  ⟨by decide, claim_C3_make_request_rotation 3 respWit 1 9 (by decide)⟩

/-- Attempt outcomes for the C3 counterexample: endpoint 0 returns a 200
response with unparseable JSON, endpoints 1 and 2 return valid JSON. -/
def respCex : Nat → ReqOutcome Nat := fun i => if i = 0 then .badJson else .ok 7

/-- Claim C3 counterexample: `_make_request` returns `None` although endpoint
1 yields a 200 response whose body parses as JSON — the bad-JSON outcome of
endpoint 0 stops the rotation, refuting "returns None exactly when no endpoint
yields a 200 response whose body parses as JSON". -/
theorem claim_C3_counterexample :
    (make_request 3 respCex 0 0).1 = none ∧ respCex 1 = ReqOutcome.ok 7 ∧ 1 < 3 := by
  decide

theorem add_analyzed_song_mem_self (newId : Nat) (d : SongDetail) (db : List AnalyzedRow) :
    rowOfDetail newId d ∈ add_analyzed_song newId d db := by
  simp [add_analyzed_song]

/-! ## Claim C5 -/

/-- Claim C5: every `/song_detail` request that produces a successful
song-detail response leaves in the `analyzed_songs` table a row carrying the
request's `song_id`, the response's source, name and artist, and the computed
`lyric_lines`, `word_count` and `has_lyrics` analysis fields.  (The code
performs this write on a background thread; the embedding applies it
synchronously.) -/
theorem claim_C5_detail_persisted (env : DetailEnv) (song_id source name artist album
    lyricist composer : String) (newId : Nat) (db : List AnalyzedRow) (d : SongDetail)
    (h : (get_song_detail env song_id source name artist album lyricist composer
        newId db).1 = DetailResponse.ok d) :
    ∃ r ∈ (get_song_detail env song_id source name artist album lyricist composer
        newId db).2,
      r.song_id = song_id ∧ r.source = d.source ∧ r.name = d.name ∧ r.artist = d.artist
      ∧ r.lyric_lines = d.analysis.lyric_lines ∧ r.word_count = d.analysis.word_count
      ∧ r.has_lyrics = d.analysis.has_lyrics := by
  by_cases h0 : song_id = ""
  · rw [get_song_detail, if_pos h0] at h
    cases h
  · by_cases h1 : source = "local" ∧ env.localAvailable
    · cases hes : env.esGet with
      | error e =>
        rw [get_song_detail, if_neg h0, if_pos h1, hes] at h
        cases h
      | ok sd =>
        rw [get_song_detail, if_neg h0, if_pos h1, hes] at h ⊢
        injection h with h2
        subst h2
        exact ⟨rowOfDetail newId _, add_analyzed_song_mem_self newId _ db,
          rfl, rfl, rfl, rfl, rfl, rfl, rfl⟩
    · rw [get_song_detail, if_neg h0, if_neg h1] at h ⊢
      injection h with h2
      subst h2
      exact ⟨rowOfDetail newId _, add_analyzed_song_mem_self newId _ db,
        rfl, rfl, rfl, rfl, rfl, rfl, rfl⟩

/-- Environment for the C5 witness: an online request whose lyrics fetch
returns a two-line lyric. -/
def envDetailWit : DetailEnv :=
  { localAvailable := false, esGet := .error (), lyricsResult := ("la\nla", ""),
    coverResult := "" }

/-- The song detail the code computes in `envDetailWit`. -/
def detailWit : SongDetail :=
  { id := "id1", name := "Song", artist := "Artist", album := "", lyricist := "",
    composer := "", source := "netease", platform_name := "网易云音乐",
    lyric := "la\nla", tlyric := "", cover_url := "",
    analysis := { lyric_lines := 2, word_count := 4, has_lyrics := true } }

theorem claim_C5_witness :
    ∃ r ∈ (get_song_detail envDetailWit "id1" "netease" "Song" "Artist" "" "" "" 1 []).2,
      r.song_id = "id1" ∧ r.source = detailWit.source ∧ r.name = detailWit.name
      ∧ r.artist = detailWit.artist
      ∧ r.lyric_lines = detailWit.analysis.lyric_lines
      ∧ r.word_count = detailWit.analysis.word_count
      ∧ r.has_lyrics = detailWit.analysis.has_lyrics :=
  claim_C5_detail_persisted envDetailWit "id1" "netease" "Song" "Artist" "" "" "" 1 []
    detailWit (by decide)

/-! ## Claim C6 -/

/-- Claim C6: `/delete_analyzed_songs` deletes rows iff the password matches
and `song_ids` is non-empty; otherwise it answers `success=False` with the
table unchanged; on success it removes exactly the rows whose primary key is
listed and reports their number. -/
theorem claim_C6_password_gated_delete (password : Option String) (song_ids : List Nat)
    (db : List AnalyzedRow) :
    (password ≠ some "ozh02264632" →
      (delete_analyzed_songs password song_ids db).1.isSuccess = false
      ∧ (delete_analyzed_songs password song_ids db).2 = db)
    ∧ (password = some "ozh02264632" → song_ids = [] →
      (delete_analyzed_songs password song_ids db).1.isSuccess = false
      ∧ (delete_analyzed_songs password song_ids db).2 = db)
    ∧ (password = some "ozh02264632" → song_ids ≠ [] →
      (delete_analyzed_songs password song_ids db).1
        = DeleteResponse.ok ((db.filter (fun r => song_ids.contains r.id)).length)
      ∧ (delete_analyzed_songs password song_ids db).2
        = db.filter (fun r => !song_ids.contains r.id)
      ∧ ∀ r : AnalyzedRow,
          (r ∈ (delete_analyzed_songs password song_ids db).2 ↔
            r ∈ db ∧ song_ids.contains r.id = false)) := by
  refine ⟨?_, ?_, ?_⟩
  · intro hp
    rw [delete_analyzed_songs, if_pos hp]
    exact ⟨rfl, rfl⟩
  · intro hp hids
    rw [delete_analyzed_songs, if_neg (by simp [hp]), if_pos hids]
    exact ⟨rfl, rfl⟩
  · intro hp hids
    rw [delete_analyzed_songs, if_neg (by simp [hp]), if_neg hids]
    refine ⟨rfl, rfl, ?_⟩
    intro r
    simp [List.mem_filter]

/-- A sample table row, used by the witnesses. -/
def rowWit : AnalyzedRow :=
  { id := 1, song_id := "s", source := "netease", name := "n", artist := "a",
    album := "", lyricist := "", composer := "", platform_name := "",
    lyric_lines := 0, word_count := 0, has_lyrics := false }

theorem claim_C6_witness :
    (some "ozh02264632" ≠ some "ozh02264632" →
      (delete_analyzed_songs (some "ozh02264632") [1] [rowWit]).1.isSuccess = false
      ∧ (delete_analyzed_songs (some "ozh02264632") [1] [rowWit]).2 = [rowWit])
    ∧ (some "ozh02264632" = some "ozh02264632" → [1] = ([] : List Nat) →
      (delete_analyzed_songs (some "ozh02264632") [1] [rowWit]).1.isSuccess = false
      ∧ (delete_analyzed_songs (some "ozh02264632") [1] [rowWit]).2 = [rowWit])
    ∧ (some "ozh02264632" = some "ozh02264632" → [1] ≠ ([] : List Nat) →
      (delete_analyzed_songs (some "ozh02264632") [1] [rowWit]).1
        = DeleteResponse.ok (([rowWit].filter
            (fun r => ([1] : List Nat).contains r.id)).length)
      ∧ (delete_analyzed_songs (some "ozh02264632") [1] [rowWit]).2
        = [rowWit].filter (fun r => !(([1] : List Nat).contains r.id))
      ∧ ∀ r : AnalyzedRow,
          (r ∈ (delete_analyzed_songs (some "ozh02264632") [1] [rowWit]).2 ↔
            r ∈ [rowWit] ∧ ([1] : List Nat).contains r.id = false)) :=
  claim_C6_password_gated_delete (some "ozh02264632") [1] [rowWit]

/-! ## Claim C8 -/

/-- Claim C8: the `UNIQUE(song_id, source)` invariant holds of the empty
table and is preserved by every `add_analyzed_song` write, which replaces any
existing row for the same `(song_id, source)` pair: after the write the only
row with that key is the freshly inserted one. -/
theorem claim_C8_unique_song_source (newId : Nat) (d : SongDetail)
    (db : List AnalyzedRow) (hinv : analyzedInv db) :
    analyzedInv ([] : List AnalyzedRow)
    ∧ analyzedInv (add_analyzed_song newId d db)
    ∧ ∀ r ∈ add_analyzed_song newId d db,
        r.song_id = d.id ∧ r.source = d.source → r = rowOfDetail newId d := by
  refine ⟨List.Pairwise.nil, ?_, ?_⟩
  · rw [add_analyzed_song, analyzedInv, List.pairwise_append]
    refine ⟨List.Pairwise.filter _ hinv, List.pairwise_singleton _ _, ?_⟩
    intro a ha b hb
    rw [List.mem_singleton] at hb
    subst hb
    have := (List.mem_filter.mp ha).2
    simp only [decide_not, Bool.not_eq_true', decide_eq_false_iff_not] at this
    intro hk
    exact this ⟨hk.1, hk.2⟩
  · intro r hr hk
    rw [add_analyzed_song] at hr
    rcases List.mem_append.mp hr with hr | hr
    · have := (List.mem_filter.mp hr).2
      simp only [decide_not, Bool.not_eq_true', decide_eq_false_iff_not] at this
      exact absurd ⟨hk.1, hk.2⟩ this
    · exact List.mem_singleton.mp hr

theorem claim_C8_witness :
    analyzedInv ([] : List AnalyzedRow)
    ∧ analyzedInv (add_analyzed_song 1 detailWit [])
    ∧ ∀ r ∈ add_analyzed_song 1 detailWit [],
        r.song_id = detailWit.id ∧ r.source = detailWit.source →
          r = rowOfDetail 1 detailWit :=
  claim_C8_unique_song_source 1 detailWit [] List.Pairwise.nil

/-! ## Lemmas about `findSub` and `collectMatches` -/

theorem findSub_spec (needle : List Char) :
    ∀ (hay : List Char) (i : Nat), findSub needle hay = some i →
      isPrefixList needle (hay.drop i) = true ∧
      ∀ j < i, isPrefixList needle (hay.drop j) = false := by
  intro hay
  induction hay with
  | nil =>
    intro i h
    simp only [findSub] at h
    split at h
    · rename_i hpre
      injection h with h1
      subst h1
      exact ⟨hpre, fun j hj => absurd hj (Nat.not_lt_zero j)⟩
    · cases h
  | cons c t ih =>
    intro i h
    simp only [findSub] at h
    split at h
    · rename_i hpre
      injection h with h1
      subst h1
      exact ⟨hpre, fun j hj => absurd hj (Nat.not_lt_zero j)⟩
    · rename_i hpre
      rw [Option.map_eq_some'] at h
      obtain ⟨i1, hfind, hi⟩ := h
      subst hi
      obtain ⟨hp, hmin⟩ := ih i1 hfind
      refine ⟨by simpa using hp, ?_⟩
      intro j hj
      cases j with
      | zero =>
        simpa using hpre
      | succ j1 =>
        simpa using hmin j1 (by omega)

theorem collectMatches_mem (qlow : List Char) (qlen : Nat) :
    ∀ (lines : List String) (i0 : Nat) (m : LyricMatch),
      m ∈ collectMatches qlow qlen lines i0 →
      ∃ line ∈ lines, m.line_text = pyStrip line ∧ pyStrip line ≠ "" ∧
        findSub qlow (pyLower (pyStrip line)).data = some m.start_pos := by
  intro lines
  induction lines with
  | nil => intro i0 m hm; simp [collectMatches] at hm
  | cons line rest ih =>
    intro i0 m hm
    simp only [collectMatches] at hm
    split at hm
    · obtain ⟨l, hl, hp⟩ := ih (i0 + 1) m hm
      exact ⟨l, List.mem_cons_of_mem _ hl, hp⟩
    · rename_i hne
      split at hm
      · rename_i pos hpos
        rcases List.mem_cons.mp hm with hm | hm
        · subst hm
          exact ⟨line, List.mem_cons_self _ _, rfl, hne, hpos⟩
        · obtain ⟨l, hl, hp⟩ := ih (i0 + 1) m hm
          exact ⟨l, List.mem_cons_of_mem _ hl, hp⟩
      · obtain ⟨l, hl, hp⟩ := ih (i0 + 1) m hm
        exact ⟨l, List.mem_cons_of_mem _ hl, hp⟩

/-! ## Claim C9 -/

/-- Claim C9: `find_lyric_matches` returns at most 5 matches; it returns `[]`
whenever the lyric or the query is empty; and every returned match's
`line_text` is a non-empty (stripped) line of the time-tag-stripped lyric
whose lowercase form contains the lowercase query at position `start_pos`,
with no earlier occurrence. -/
theorem claim_C9_lyric_matches (lyric_text query : String) :
    (find_lyric_matches lyric_text query).length ≤ 5
    ∧ ((lyric_text = "" ∨ query = "") → find_lyric_matches lyric_text query = [])
    ∧ ∀ m ∈ find_lyric_matches lyric_text query,
        m.line_text ≠ ""
        ∧ m.line_text ∈ (pySplitLines (pyStrip ⟨removeTags lyric_text.data⟩)).map pyStrip
        ∧ isPrefixList (pyLower query).data ((pyLower m.line_text).data.drop m.start_pos)
            = true
        ∧ ∀ j < m.start_pos,
            isPrefixList (pyLower query).data ((pyLower m.line_text).data.drop j)
              = false := by
  by_cases he : lyric_text = "" ∨ query = ""
  · rw [find_lyric_matches, if_pos he]
    exact ⟨by simp, fun _ => rfl, fun m hm => absurd hm (List.not_mem_nil m)⟩
  · refine ⟨?_, fun h => absurd h he, ?_⟩
    · rw [find_lyric_matches, if_neg he]
      exact List.length_take_le 5 _
    · intro m hm
      rw [find_lyric_matches, if_neg he] at hm
      have hm' := List.mem_of_mem_take hm
      obtain ⟨line, hline, hlt, hne, hfind⟩ :=
        collectMatches_mem (pyLower query).data query.length _ 1 m hm'
      have hspec := findSub_spec (pyLower query).data (pyLower (pyStrip line)).data
        m.start_pos hfind
      refine ⟨?_, ?_, ?_, ?_⟩
      · rw [hlt]; exact hne
      · rw [hlt]; exact List.mem_map_of_mem _ hline
      · rw [hlt]; exact hspec.1
      · intro j hj
        rw [hlt]
        exact hspec.2 j hj

theorem claim_C9_witness :
    (find_lyric_matches "[00:01.000]Hello World\nla la\n\n" "WORLD").length ≤ 5
    ∧ (("[00:01.000]Hello World\nla la\n\n" = "" ∨ "WORLD" = "") →
        find_lyric_matches "[00:01.000]Hello World\nla la\n\n" "WORLD" = [])
    ∧ ∀ m ∈ find_lyric_matches "[00:01.000]Hello World\nla la\n\n" "WORLD",
        m.line_text ≠ ""
        ∧ m.line_text ∈ (pySplitLines (pyStrip
            ⟨removeTags ("[00:01.000]Hello World\nla la\n\n" : String).data⟩)).map pyStrip
        ∧ isPrefixList (pyLower "WORLD").data
            ((pyLower m.line_text).data.drop m.start_pos) = true
        ∧ ∀ j < m.start_pos,
            isPrefixList (pyLower "WORLD").data
              ((pyLower m.line_text).data.drop j) = false :=
  claim_C9_lyric_matches "[00:01.000]Hello World\nla la\n\n" "WORLD"

/-! ## Lemmas about the `/suggest` dedup loop -/

/-- The key of line 743 recomputed from a suggestion's own fields. -/
def sugKeyOf (x : Suggestion) : String := pyLower (x.name ++ "-" ++ x.artist)

theorem sugKeyOf_mkSuggestion (s : Song) (nstr astr : String) :
    sugKeyOf (mkSuggestion s nstr astr) = suggestKey nstr astr := rfl

theorem suggestDedup_length_le :
    ∀ (xs : List Song) (limit : Nat) (seen : List String), 1 ≤ limit →
      (suggestDedup limit xs seen).length ≤ limit := by
  intro xs
  induction xs with
  | nil => intro limit seen _; simp [suggestDedup]
  | cons s rest ih =>
    intro limit seen h
    simp only [suggestDedup]
    split
    · split
      · simpa using h
      · simp only [List.length_cons]
        have := ih (limit - 1) (suggestKey (pyStrip s.name) (artistToStr s.artist) :: seen)
          (by omega)
        omega
    · exact ih limit seen h

theorem suggestDedup_mem_key :
    ∀ (xs : List Song) (limit : Nat) (seen : List String),
      ∀ o ∈ suggestDedup limit xs seen, sugKeyOf o ∉ seen := by
  intro xs
  induction xs with
  | nil => intro limit seen o ho; simp [suggestDedup] at ho
  | cons s rest ih =>
    intro limit seen o ho
    simp only [suggestDedup] at ho
    split at ho
    · rename_i hc
      split at ho
      · rw [List.mem_singleton] at ho
        subst ho
        rw [sugKeyOf_mkSuggestion]
        exact hc.1
      · rcases List.mem_cons.mp ho with ho | ho
        · subst ho
          rw [sugKeyOf_mkSuggestion]
          exact hc.1
        · have := ih (limit - 1)
            (suggestKey (pyStrip s.name) (artistToStr s.artist) :: seen) o ho
          exact fun hmem => this (List.mem_cons_of_mem _ hmem)
    · exact ih limit seen o ho

theorem suggestDedup_pairwise :
    ∀ (xs : List Song) (limit : Nat) (seen : List String),
      (suggestDedup limit xs seen).Pairwise (fun a b => sugKeyOf a ≠ sugKeyOf b) := by
  intro xs
  induction xs with
  | nil => intro limit seen; simp [suggestDedup]
  | cons s rest ih =>
    intro limit seen
    simp only [suggestDedup]
    split
    · split
      · simp
      · refine List.Pairwise.cons ?_ (ih _ _)
        intro b hb
        have hbs := suggestDedup_mem_key rest (limit - 1)
          (suggestKey (pyStrip s.name) (artistToStr s.artist) :: seen) b hb
        rw [sugKeyOf_mkSuggestion]
        intro he
        exact hbs (by rw [← he]; exact List.mem_cons_self _ _)
    · exact ih _ _

/-! ## Claim C10 -/

/-- Claim C10 (amended): `/suggest` returns no suggestions for a (stripped)
query shorter than 2 characters, and responds with an empty suggestion list on
any internal error; no two returned suggestions share the lowercased
name-artist key; and for every requested `limit ≥ 1` the suggestion count
never exceeds `limit` (with a non-positive limit the loop still emits one
suggestion before breaking, so the bound fails only at `limit = 0`). -/
theorem claim_C10_suggest_bounds (env : SuggestEnv) (q0 : String) (limit : Nat) :
    ((pyStrip q0).length < 2 → search_suggest env q0 limit = [])
    ∧ (∀ e : Unit, suggestHandler (.error e) = [])
    ∧ (1 ≤ limit → (search_suggest env q0 limit).length ≤ limit)
    ∧ (search_suggest env q0 limit).Pairwise
        (fun a b => sugKeyOf a ≠ sugKeyOf b) := by
  refine ⟨?_, fun e => rfl, ?_, ?_⟩
  · intro h
    simp only [search_suggest]
    rw [if_pos h]
  · intro hl
    by_cases h2 : (pyStrip q0).length < 2
    · simp [search_suggest, h2]
    · simp only [search_suggest]
      rw [if_neg h2]
      exact suggestDedup_length_le _ _ _ hl
  · by_cases h2 : (pyStrip q0).length < 2
    · simp [search_suggest, h2]
    · simp only [search_suggest]
      rw [if_neg h2]
      exact suggestDedup_pairwise _ _ _

/-- Environment for the C10 witness and counterexample: one local song. -/
def envSuggestWit : SuggestEnv :=
  { localAvailable := true,
    localSuggestions := [{ id := "1", name := "ab", artist := ArtistVal.str "X" }],
    neteaseSuggestions := [] }

theorem claim_C10_witness :
    ((pyStrip "ab").length < 2 → search_suggest envSuggestWit "ab" 6 = [])
    ∧ (∀ e : Unit, suggestHandler (.error e) = [])
    ∧ (1 ≤ 6 → (search_suggest envSuggestWit "ab" 6).length ≤ 6)
    ∧ (search_suggest envSuggestWit "ab" 6).Pairwise
        (fun a b => sugKeyOf a ≠ sugKeyOf b) :=
  claim_C10_suggest_bounds envSuggestWit "ab" 6

/-- Claim C10 counterexample: a request with `limit = 0` still returns one
suggestion (the loop appends before checking the bound), so "their count
never exceeds the requested limit" fails for `limit = 0`. -/
theorem claim_C10_counterexample :
    (search_suggest envSuggestWit "ab" 0).length = 1
    ∧ ¬((search_suggest envSuggestWit "ab" 0).length ≤ 0) := by
  decide
